import Mathlib

/-!
Shallow embedding of `src/proto/state.rs`: the per-stream HTTP/2 state
machine (`StreamState`, `PeerState`) and its flow-control accounting
(`FlowController`).

Rust mutation is embedded as explicit state passing: a method
`fn f(&mut self, ...) -> R` becomes a Lean function
`f : State -> ... -> R × State` (the result paired with the state after the
call).  `unimplemented!()` panics are embedded by wrapping the result type in
`Option`, with `none` for the panic.  `u32` values become `Nat`; the signed
window counter becomes `Int`.

One Rust-semantics point matters below: `StreamState` and `PeerState` derive
`Copy`, so `match *self { Open { local, mut remote } => ... }` binds `local`
and `remote` to by-value copies of the halves; mutating such a binding does
not write back into `*self`.  The embedding reproduces this faithfully: where
the Rust code mutates a pattern-bound copy and never reassigns `*self`, the
embedded function returns the original state.
-/

/-- Modelled from the spec: protocol-level error reasons (`error::Reason`),
whose source is not under `src/`; only the two variants used by
`state.rs` are modelled. -/
inductive Reason where
  | ProtocolError
  | FlowControlError
deriving DecidableEq, Repr

/-- Modelled from the spec: caller-level (`error::User`) error kinds, whose
source is not under `src/`; only the two variants used by `state.rs` are
modelled. -/
inductive User where
  | UnexpectedFrameType
  | FlowControlViolation
deriving DecidableEq, Repr

/-- Modelled from the spec: `ConnectionError`, "constructed from a `Reason`
(protocol-level ...) or a `User`-classified error (caller-level ...)".
The `.into()` conversions in `state.rs` map to the two constructors. -/
inductive ConnectionError where
  | proto (r : Reason)
  | user (u : User)
deriving DecidableEq, Repr

/-- The protocol-maximum flow-control window size, 2^31 - 1 (RFC 7540 §6.9). -/
def maxWindowSize : Int := 2 ^ 31 - 1

/-- Modelled from the spec: `FlowController` (its source file, `proto`'s flow
controller, is not under `src/`). "A signed window-size counter (capacity
currently available to the window's owner, may legally go negative ...) and an
unsigned pending-increment accumulator (credit received/granted but not yet
reported to the caller as a window update to send)." -/
structure FlowController where
  window_size : Int
  pending_update : Nat
deriving DecidableEq, Repr

namespace FlowController

/-- Modelled from the spec: `FlowController::new` — "created with an initial
window size (from connection SETTINGS)"; nothing is pending initially. -/
def new (initial_window_size : Nat) : FlowController :=
  { window_size := initial_window_size, pending_update := 0 }

/-- Modelled from the spec: `grow_window(incr)` — "increases available capacity
by `incr` (no-op if `incr == 0`) ... Must not allow the counter to exceed the
protocol maximum" (growth saturates/clamps), and the increment accumulates as
pending credit to be drained by `take_window_update`. -/
def grow_window (fc : FlowController) (incr : Nat) : FlowController :=
  if incr = 0 then fc
  else { window_size := min (fc.window_size + incr) maxWindowSize,
         pending_update := fc.pending_update + incr }

/-- Modelled from the spec: `shrink_window(decr)` — "decreases available
capacity by `decr` (no-op if 0) ... may legally drive the counter negative". -/
def shrink_window (fc : FlowController) (decr : Nat) : FlowController :=
  if decr = 0 then fc
  else { fc with window_size := fc.window_size - decr }

/-- Modelled from the spec: `claim_window(len)` — "attempts to debit `len`
bytes of capacity ... Fails with a flow-control error if `len` exceeds
currently available (non-negative) capacity; on success debits the window". -/
def claim_window (fc : FlowController) (len : Nat) : Except Unit FlowController :=
  if (len : Int) ≤ fc.window_size then
    .ok { fc with window_size := fc.window_size - len }
  else
    .error ()

/-- Modelled from the spec: `take_window_update()` — "atomically drains and
returns the pending-increment accumulator as an `Option` — `None` if no
increment is pending, `Some(n)` otherwise". -/
def take_window_update (fc : FlowController) : Option Nat × FlowController :=
  if fc.pending_update = 0 then (none, fc)
  else (some fc.pending_update, { fc with pending_update := 0 })

end FlowController

/-- `PeerState` from `state.rs`: one-directional protocol phase for one
stream; `Data` carries the `FlowController` of the receiver of the stream. -/
inductive PeerState where
  | Headers
  | Data (fc : FlowController)
deriving DecidableEq, Repr

namespace PeerState

/-- `PeerState::check_is_headers`: `Ok(())` iff in the `Headers` phase,
otherwise the caller-supplied error. -/
def check_is_headers (p : PeerState) (err : ConnectionError) :
    Except ConnectionError Unit :=
  match p with
  | .Headers => .ok ()
  | _ => .error err

/-- `PeerState::check_is_data`: `Ok(())` iff in the `Data` phase, otherwise
the caller-supplied error. -/
def check_is_data (p : PeerState) (err : ConnectionError) :
    Except ConnectionError Unit :=
  match p with
  | .Data _ => .ok ()
  | _ => .error err

/-- `PeerState::claim_window_size(sz, err)`: delegates to the embedded
controller's `claim_window`, mapping its failure to `err`; fails immediately
with `err` in the `Headers` phase.  (Rust mutates `self`; here the updated
`PeerState` is returned on success.) -/
def claim_window_size (p : PeerState) (sz : Nat) (err : ConnectionError) :
    Except ConnectionError PeerState :=
  match p with
  | .Data fc =>
    match fc.claim_window sz with
    | .ok fc2 => .ok (.Data fc2)
    | .error _ => .error err
  | _ => .error err

end PeerState

/-- `StreamState` from `state.rs`: the full per-stream state (the two
`Reserved` variants are commented out in the source and omitted here too).
In `Open`, `loc` embeds the source field `local` (a Lean keyword) and `rem`
the field `remote`. -/
inductive StreamState where
  | Idle
  | Open (loc rem : PeerState)
  | HalfClosedLocal (p : PeerState)
  | HalfClosedRemote (p : PeerState)
  | Closed
deriving DecidableEq, Repr

namespace StreamState

/-- `StreamState::grow_send_window(incr)`: early return at `incr == 0`, then
grows the controller matched at `Open { remote: Data(fc), .. }` or
`HalfClosedLocal(Data(fc))`; every other state is left unchanged. -/
def grow_send_window (s : StreamState) (incr : Nat) : StreamState :=
  if incr = 0 then s
  else
    match s with
    | .Open l (.Data fc) => .Open l (.Data (fc.grow_window incr))
    | .HalfClosedLocal (.Data fc) => .HalfClosedLocal (.Data (fc.grow_window incr))
    | _ => s

/-- `StreamState::shrink_send_window(decr)`: early return at `decr == 0`, then
shrinks the controller matched at `Open { local: Data(fc), .. }` (note: the
source's pattern is on the `local` field) or `HalfClosedLocal(Data(fc))`;
every other state is left unchanged. -/
def shrink_send_window (s : StreamState) (decr : Nat) : StreamState :=
  if decr = 0 then s
  else
    match s with
    | .Open (.Data fc) r => .Open (.Data (fc.shrink_window decr)) r
    | .HalfClosedLocal (.Data fc) => .HalfClosedLocal (.Data (fc.shrink_window decr))
    | _ => s

/-- `StreamState::take_send_window_update()`: drains the controller matched at
`Open { remote: Data(fc), .. }` or `HalfClosedLocal(Data(fc))`; `None` (and no
change) otherwise. -/
def take_send_window_update (s : StreamState) : Option Nat × StreamState :=
  match s with
  | .Open l (.Data fc) =>
    let (u, fc2) := fc.take_window_update
    (u, .Open l (.Data fc2))
  | .HalfClosedLocal (.Data fc) =>
    let (u, fc2) := fc.take_window_update
    (u, .HalfClosedLocal (.Data fc2))
  | _ => (none, s)

/-- `StreamState::grow_recv_window(incr)`: early return at `incr == 0`, then
grows the controller matched at `Open { local: Data(fc), .. }` or
`HalfClosedRemote(Data(fc))`; every other state is left unchanged. -/
def grow_recv_window (s : StreamState) (incr : Nat) : StreamState :=
  if incr = 0 then s
  else
    match s with
    | .Open (.Data fc) r => .Open (.Data (fc.grow_window incr)) r
    | .HalfClosedRemote (.Data fc) => .HalfClosedRemote (.Data (fc.grow_window incr))
    | _ => s

/-- `StreamState::shrink_recv_window(decr)`: early return at `decr == 0`, then
shrinks the controller matched at `Open { local: Data(fc), .. }` or
`HalfClosedRemote(Data(fc))`; every other state is left unchanged. -/
def shrink_recv_window (s : StreamState) (decr : Nat) : StreamState :=
  if decr = 0 then s
  else
    match s with
    | .Open (.Data fc) r => .Open (.Data (fc.shrink_window decr)) r
    | .HalfClosedRemote (.Data fc) => .HalfClosedRemote (.Data (fc.shrink_window decr))
    | _ => s

/-- `StreamState::take_recv_window_update()`: drains the controller matched at
`Open { local: Data(fc), .. }` or `HalfClosedRemote(Data(fc))`; `None` (and no
change) otherwise. -/
def take_recv_window_update (s : StreamState) : Option Nat × StreamState :=
  match s with
  | .Open (.Data fc) r =>
    let (u, fc2) := fc.take_window_update
    (u, .Open (.Data fc2) r)
  | .HalfClosedRemote (.Data fc) =>
    let (u, fc2) := fc.take_window_update
    (u, .HalfClosedRemote (.Data fc2))
  | _ => (none, s)

/-- `StreamState::recv_headers::<P>(eos, initial_recv_window_size)`.  The
phantom `Peer` type parameter does not affect behavior and is dropped.  The
`try!` early returns become matches on the `Except` value; an early `Err`
return leaves `*self` (the returned state) untouched. -/
def recv_headers (s : StreamState) (eos : Bool)
    (initial_recv_window_size : Nat) :
    Except ConnectionError Bool × StreamState :=
  match s with
  | .Idle =>
    if eos then (.ok true, .HalfClosedRemote .Headers)
    else (.ok true,
          .Open .Headers (.Data (FlowController.new initial_recv_window_size)))
  | .Open l r =>
    match r.check_is_headers (.proto .ProtocolError) with
    | .error e => (.error e, s)
    | .ok _ =>
      if !eos then
        -- Received non-trailers HEADERS on open remote.
        (.error (.proto .ProtocolError), s)
      else (.ok false, .HalfClosedRemote l)
  | .HalfClosedLocal h =>
    match h.check_is_headers (.proto .ProtocolError) with
    | .error e => (.error e, s)
    | .ok _ =>
      if eos then (.ok false, .Closed)
      else (.ok false,
            .HalfClosedLocal (.Data (FlowController.new initial_recv_window_size)))
  | .Closed => (.error (.proto .ProtocolError), s)
  | .HalfClosedRemote _ => (.error (.proto .ProtocolError), s)

/-- `StreamState::recv_data(eos, len)`.  `none` embeds the `unimplemented!()`
panic on the remaining (`Idle`) arm.  Rust binds `local`/`remote` by value
(`PeerState: Copy`), so the window debit performed by `claim_window_size` on
the binding `remote` is never written back to `*self`: the embedded function
checks that the claim succeeds but returns a state built from the original
halves, exactly as the source does. -/
def recv_data (s : StreamState) (eos : Bool) (len : Nat) :
    Option (Except ConnectionError Unit × StreamState) :=
  match s with
  | .Open l r =>
    match r.check_is_data (.proto .ProtocolError) with
    | .error e => some (.error e, s)
    | .ok _ =>
      match r.claim_window_size len (.proto .FlowControlError) with
      | .error e => some (.error e, s)
      | .ok _ =>
        -- the claimed copy of `remote` is dropped here, as in the source
        some (.ok (), if eos then .HalfClosedRemote l else s)
  | .HalfClosedLocal r =>
    match r.check_is_data (.proto .ProtocolError) with
    | .error e => some (.error e, s)
    | .ok _ =>
      match r.claim_window_size len (.proto .FlowControlError) with
      | .error e => some (.error e, s)
      | .ok _ =>
        some (.ok (), if eos then .Closed else s)
  | .Closed => some (.error (.proto .ProtocolError), s)
  | .HalfClosedRemote _ => some (.error (.proto .ProtocolError), s)
  | .Idle => none

/-- `StreamState::send_headers::<P>(eos, initial_window_size)`; the phantom
`Peer` parameter is dropped. -/
def send_headers (s : StreamState) (eos : Bool) (initial_window_size : Nat) :
    Except ConnectionError Bool × StreamState :=
  match s with
  | .Idle =>
    if eos then (.ok true, .HalfClosedLocal .Headers)
    else (.ok true,
          .Open (.Data (FlowController.new initial_window_size)) .Headers)
  | .Open l r =>
    match l.check_is_headers (.user .UnexpectedFrameType) with
    | .error e => (.error e, s)
    | .ok _ =>
      if eos then (.ok false, .HalfClosedLocal r)
      else (.ok false,
            .Open (.Data (FlowController.new initial_window_size)) r)
  | .HalfClosedRemote l =>
    match l.check_is_headers (.user .UnexpectedFrameType) with
    | .error e => (.error e, s)
    | .ok _ =>
      if eos then (.ok false, .Closed)
      else (.ok false,
            .HalfClosedRemote (.Data (FlowController.new initial_window_size)))
  | .Closed => (.error (.user .UnexpectedFrameType), s)
  | .HalfClosedLocal _ => (.error (.user .UnexpectedFrameType), s)

/-- `StreamState::send_data(eos, len)`.  `none` embeds the `unimplemented!()`
panic on the remaining (`Idle`) arm; as in `recv_data`, the claim debits a
by-value copy of the `local` half that is never written back. -/
def send_data (s : StreamState) (eos : Bool) (len : Nat) :
    Option (Except ConnectionError Unit × StreamState) :=
  match s with
  | .Open l r =>
    match l.check_is_data (.user .UnexpectedFrameType) with
    | .error e => some (.error e, s)
    | .ok _ =>
      match l.claim_window_size len (.user .FlowControlViolation) with
      | .error e => some (.error e, s)
      | .ok _ =>
        some (.ok (), if eos then .HalfClosedLocal r else s)
  | .HalfClosedRemote l =>
    match l.check_is_data (.user .UnexpectedFrameType) with
    | .error e => some (.error e, s)
    | .ok _ =>
      match l.claim_window_size len (.user .FlowControlViolation) with
      | .error e => some (.error e, s)
      | .ok _ =>
        some (.ok (), if eos then .Closed else s)
  | .Closed => some (.error (.user .UnexpectedFrameType), s)
  | .HalfClosedLocal _ => some (.error (.user .UnexpectedFrameType), s)
  | .Idle => none

end StreamState

/-- Role swap (local ↔ remote) on a stream state, used to state the
send/recv mirror-symmetry claims: the `Open` halves are exchanged and the two
half-closed variants are exchanged. -/
def swapRoles : StreamState → StreamState
  | .Idle => .Idle
  | .Open l r => .Open r l
  | .HalfClosedLocal p => .HalfClosedRemote p
  | .HalfClosedRemote p => .HalfClosedLocal p
  | .Closed => .Closed

/-- The error-kind translation of the spec's symmetry claim: the recv-side
(peer-fault) kinds map to the corresponding send-side (local-bug) kinds. -/
def reasonToUser : ConnectionError → ConnectionError
  | .proto .ProtocolError => .user .UnexpectedFrameType
  | .proto .FlowControlError => .user .FlowControlViolation
  | e => e

/-- Map `reasonToUser` over the error of an `Except` result. -/
def mapErrKind {α : Type} : Except ConnectionError α → Except ConnectionError α
  | .ok a => .ok a
  | .error e => .error (reasonToUser e)

/-- The tier of a state in the partial order
Idle < Open < half-closed < Closed. -/
def tier : StreamState → Nat
  | .Idle => 0
  | .Open _ _ => 1
  | .HalfClosedLocal _ => 2
  | .HalfClosedRemote _ => 2
  | .Closed => 3

/-- **C6.** From `Idle`, `recv_headers(eos, w)` always returns `Ok(true)`;
with `eos` the state becomes `HalfClosedRemote(Headers)`, without `eos` it
becomes `Open { local: Headers, remote: Data(FlowController::new(w)) }`
with a fresh controller carrying the given initial receive window size. -/
theorem C6_recv_headers_from_idle (eos : Bool) (w : Nat) :
    StreamState.recv_headers .Idle eos w =
      (.ok true,
       if eos then .HalfClosedRemote .Headers
       else .Open .Headers (.Data { window_size := w, pending_update := 0 })) := by
  cases eos <;> rfl

/-- **C9.** `recv_data` and `send_data` on an `Idle` stream do not return a
typed error: they reach the `unimplemented!()` arm, embedded as `none`
(the function is not total at `Idle`). -/
theorem C9_data_on_idle_panics (eos : Bool) (len : Nat) :
    StreamState.recv_data .Idle eos len = none ∧
    StreamState.send_data .Idle eos len = none :=
  ⟨rfl, rfl⟩

/-- **C8.** From `Closed`, the four transition operations return
`Err(ProtocolError)` (recv side) or `Err(UnexpectedFrameType)` (send side)
and leave the state `Closed`; the six window operations leave `Closed`
unchanged, the two take operations returning `None`. -/
theorem C8_closed_is_terminal (eos : Bool) (w len incr decr : Nat) :
    StreamState.recv_headers .Closed eos w =
      (.error (.proto .ProtocolError), .Closed) ∧
    StreamState.send_headers .Closed eos w =
      (.error (.user .UnexpectedFrameType), .Closed) ∧
    StreamState.recv_data .Closed eos len =
      some (.error (.proto .ProtocolError), .Closed) ∧
    StreamState.send_data .Closed eos len =
      some (.error (.user .UnexpectedFrameType), .Closed) ∧
    StreamState.grow_send_window .Closed incr = .Closed ∧
    StreamState.shrink_send_window .Closed decr = .Closed ∧
    StreamState.grow_recv_window .Closed incr = .Closed ∧
    StreamState.shrink_recv_window .Closed decr = .Closed ∧
    StreamState.take_send_window_update .Closed = (none, .Closed) ∧
    StreamState.take_recv_window_update .Closed = (none, .Closed) := by
  refine ⟨rfl, rfl, rfl, rfl, ?_, ?_, ?_, ?_, rfl, rfl⟩ <;>
    simp [StreamState.grow_send_window, StreamState.shrink_send_window,
          StreamState.grow_recv_window, StreamState.shrink_recv_window]

/-- **C1 (code-bug evidence).** `recv_data(eos=false, len=100)` on an `Open`
stream whose remote half holds a window of 65535 returns `Ok` but leaves the
stored remote window at 65535, not 65435: the debit performed by
`claim_window_size` applies to a by-value copy of the half and is never
written back.  Symmetrically `send_data` leaves the local half's stored
window unchanged. -/
theorem C1_claim_debit_not_persisted :
    StreamState.recv_data
        (.Open .Headers (.Data { window_size := 65535, pending_update := 0 }))
        false 100
      = some (.ok (),
          .Open .Headers (.Data { window_size := 65535, pending_update := 0 })) ∧
    StreamState.send_data
        (.Open (.Data { window_size := 65535, pending_update := 0 }) .Headers)
        false 100
      = some (.ok (),
          .Open (.Data { window_size := 65535, pending_update := 0 }) .Headers) ∧
    (65535 : Int) - 100 ≠ 65535 := by
  refine ⟨?_, ?_, by decide⟩ <;> rfl

/-- **C3 (code-bug evidence).** `shrink_send_window(1)` on
`Open { local: Data(window=1000), remote: Headers }` shrinks the *local*
half's controller (to 999), a part of the state the claim says is left
unchanged; and on `Open { local: Headers, remote: Data(window=1000) }` it
leaves the remote controller — the one the claim says it operates on —
untouched. -/
theorem C3_shrink_send_window_hits_open_local :
    StreamState.shrink_send_window
        (.Open (.Data { window_size := 1000, pending_update := 0 }) .Headers) 1
      = .Open (.Data { window_size := 999, pending_update := 0 }) .Headers ∧
    StreamState.shrink_send_window
        (.Open .Headers (.Data { window_size := 1000, pending_update := 0 })) 1
      = .Open .Headers (.Data { window_size := 1000, pending_update := 0 }) := by
  constructor <;> rfl

/-- **C2 (counterexample).** The claim's consequence "for every state in which
`recv_headers` returns an error, `send_headers` on the role-swapped state also
returns an error" is false: on `Open { local: Headers, remote: Headers }`
(whose role swap is itself) with `eos = false`, `recv_headers` returns
`Err(ProtocolError)` while `send_headers` succeeds with `Ok(false)`. -/
theorem C2_open_noneos_asymmetry :
    (StreamState.recv_headers (.Open .Headers .Headers) false 65535).1
        = .error (.proto .ProtocolError) ∧
    (StreamState.send_headers (swapRoles (.Open .Headers .Headers)) false 65535).1
        = .ok false :=
  ⟨rfl, rfl⟩

/-- **C2 (amended).** Except in the `Open` state whose local half is
`Headers` with `eos = false` (where `send_headers` succeeds and installs a
fresh `Data` local half while `recv_headers` rejects a non-trailers HEADERS),
`send_headers(eos, w)` on `s` returns exactly what `recv_headers(eos, w)`
returns on the role-swapped state, with the error kind translated
(ProtocolError ↦ UnexpectedFrameType), and its resulting state is the role
swap of `recv_headers`'s resulting state. -/
theorem C2_send_headers_mirrors_recv_headers (s : StreamState) (eos : Bool)
    (w : Nat) (h : ¬ (eos = false ∧ ∃ r, s = .Open .Headers r)) :
    (StreamState.send_headers s eos w).1
        = mapErrKind (StreamState.recv_headers (swapRoles s) eos w).1 ∧
    (StreamState.send_headers s eos w).2
        = swapRoles (StreamState.recv_headers (swapRoles s) eos w).2 := by
  cases s with
  | Idle => cases eos <;> exact ⟨rfl, rfl⟩
  | Open l r =>
    cases l with
    | Headers =>
      cases eos with
      | false => exact absurd ⟨rfl, r, rfl⟩ h
      | true => exact ⟨rfl, rfl⟩
    | Data fc => cases eos <;> exact ⟨rfl, rfl⟩
  | HalfClosedLocal p => cases eos <;> exact ⟨rfl, rfl⟩
  | HalfClosedRemote p => cases p <;> cases eos <;> exact ⟨rfl, rfl⟩
  | Closed => cases eos <;> exact ⟨rfl, rfl⟩

/-- Witness for the amended C2 theorem at `s = Idle`, `eos = true`,
`w = 65535`. -/
theorem C2_mirror_witness :
    (¬ ((true : Bool) = false ∧ ∃ r, StreamState.Idle = .Open .Headers r)) ∧
    ((StreamState.send_headers .Idle true 65535).1
        = mapErrKind (StreamState.recv_headers (swapRoles .Idle) true 65535).1 ∧
     (StreamState.send_headers .Idle true 65535).2
        = swapRoles (StreamState.recv_headers (swapRoles .Idle) true 65535).2) :=
  ⟨fun hc => Bool.noConfusion hc.1,
   C2_send_headers_mirrors_recv_headers .Idle true 65535
     (fun hc => Bool.noConfusion hc.1)⟩

/-- Case analysis for `PeerState::claim_window_size`: it either fails with
exactly the supplied error or succeeds with some updated half. -/
theorem PeerState.claim_window_size_cases (q : PeerState) (len : Nat)
    (e : ConnectionError) :
    q.claim_window_size len e = .error e ∨
    ∃ q2, q.claim_window_size len e = .ok q2 := by
  cases q with
  | Headers => exact Or.inl rfl
  | Data fc =>
    cases hfc : fc.claim_window len with
    | ok fc2 =>
      exact Or.inr ⟨.Data fc2, by simp [PeerState.claim_window_size, hfc]⟩
    | error u => exact Or.inl (by simp [PeerState.claim_window_size, hfc])

/-- **C4.** Every completed transition (headers; data when it does not hit the
`unimplemented!()` arm) moves the state weakly upward in the partial order
Idle < Open < half-closed < Closed, and never produces `Idle`: the state
machine is monotone toward `Closed`. -/
theorem C4_transitions_monotone (s : StreamState) (eos : Bool) (w len : Nat) :
    (tier s ≤ tier (StreamState.recv_headers s eos w).2 ∧
      (StreamState.recv_headers s eos w).2 ≠ .Idle) ∧
    (tier s ≤ tier (StreamState.send_headers s eos w).2 ∧
      (StreamState.send_headers s eos w).2 ≠ .Idle) ∧
    (∀ p, StreamState.recv_data s eos len = some p →
      tier s ≤ tier p.2 ∧ p.2 ≠ .Idle) ∧
    (∀ p, StreamState.send_data s eos len = some p →
      tier s ≤ tier p.2 ∧ p.2 ≠ .Idle) := by
  have hclaim := fun q e => PeerState.claim_window_size_cases q len e
  refine ⟨?_, ?_, ?_, ?_⟩
  · cases s with
    | Idle => cases eos <;> simp [StreamState.recv_headers, tier]
    | Open l r =>
      cases r <;> cases eos <;>
        simp [StreamState.recv_headers, PeerState.check_is_headers, tier]
    | HalfClosedLocal p =>
      cases p <;> cases eos <;>
        simp [StreamState.recv_headers, PeerState.check_is_headers, tier]
    | HalfClosedRemote p => simp [StreamState.recv_headers, tier]
    | Closed => simp [StreamState.recv_headers, tier]
  · cases s with
    | Idle => cases eos <;> simp [StreamState.send_headers, tier]
    | Open l r =>
      cases l <;> cases eos <;>
        simp [StreamState.send_headers, PeerState.check_is_headers, tier]
    | HalfClosedRemote p =>
      cases p <;> cases eos <;>
        simp [StreamState.send_headers, PeerState.check_is_headers, tier]
    | HalfClosedLocal p => simp [StreamState.send_headers, tier]
    | Closed => simp [StreamState.send_headers, tier]
  · intro p hp
    cases s with
    | Idle => simp [StreamState.recv_data] at hp
    | Open l r =>
      cases r with
      | Headers =>
        simp [StreamState.recv_data, PeerState.check_is_data] at hp
        subst hp; simp [tier]
      | Data fc =>
        rcases hclaim (.Data fc) (.proto .FlowControlError) with hc | ⟨q2, hc⟩ <;>
          simp [StreamState.recv_data, PeerState.check_is_data, hc] at hp <;>
          subst hp <;> cases eos <;> simp [tier]
    | HalfClosedLocal q =>
      cases q with
      | Headers =>
        simp [StreamState.recv_data, PeerState.check_is_data] at hp
        subst hp; simp [tier]
      | Data fc =>
        rcases hclaim (.Data fc) (.proto .FlowControlError) with hc | ⟨q2, hc⟩ <;>
          simp [StreamState.recv_data, PeerState.check_is_data, hc] at hp <;>
          subst hp <;> cases eos <;> simp [tier]
    | HalfClosedRemote q =>
      simp [StreamState.recv_data] at hp; subst hp; simp [tier]
    | Closed =>
      simp [StreamState.recv_data] at hp; subst hp; simp [tier]
  · intro p hp
    cases s with
    | Idle => simp [StreamState.send_data] at hp
    | Open l r =>
      cases l with
      | Headers =>
        simp [StreamState.send_data, PeerState.check_is_data] at hp
        subst hp; simp [tier]
      | Data fc =>
        rcases hclaim (.Data fc) (.user .FlowControlViolation) with hc | ⟨q2, hc⟩ <;>
          simp [StreamState.send_data, PeerState.check_is_data, hc] at hp <;>
          subst hp <;> cases eos <;> simp [tier]
    | HalfClosedRemote q =>
      cases q with
      | Headers =>
        simp [StreamState.send_data, PeerState.check_is_data] at hp
        subst hp; simp [tier]
      | Data fc =>
        rcases hclaim (.Data fc) (.user .FlowControlViolation) with hc | ⟨q2, hc⟩ <;>
          simp [StreamState.send_data, PeerState.check_is_data, hc] at hp <;>
          subst hp <;> cases eos <;> simp [tier]
    | HalfClosedLocal q =>
      simp [StreamState.send_data] at hp; subst hp; simp [tier]
    | Closed =>
      simp [StreamState.send_data] at hp; subst hp; simp [tier]

/-- Witness for C4 at `Open { local: Headers, remote: Data(window=10) }`,
`recv_data(eos=true, len=3)`, which completes into `HalfClosedRemote`. -/
theorem C4_monotone_witness :
    tier (.Open .Headers (.Data { window_size := 10, pending_update := 0 }))
        ≤ tier (StreamState.HalfClosedRemote .Headers) ∧
    StreamState.HalfClosedRemote .Headers ≠ .Idle :=
  (C4_transitions_monotone
      (.Open .Headers (.Data { window_size := 10, pending_update := 0 }))
      true 5 3).2.2.1
    (.ok (), .HalfClosedRemote .Headers) rfl

/-- **C5.** A transition call that returns `Err` leaves the state exactly as
it was (full structural equality, so every embedded controller's window and
pending increment included): rejected transitions are atomic. -/
theorem C5_error_leaves_state_unchanged (s : StreamState) (eos : Bool)
    (w len : Nat) :
    (∀ e, (StreamState.recv_headers s eos w).1 = .error e →
        (StreamState.recv_headers s eos w).2 = s) ∧
    (∀ e, (StreamState.send_headers s eos w).1 = .error e →
        (StreamState.send_headers s eos w).2 = s) ∧
    (∀ p e, StreamState.recv_data s eos len = some p → p.1 = .error e →
        p.2 = s) ∧
    (∀ p e, StreamState.send_data s eos len = some p → p.1 = .error e →
        p.2 = s) := by
  refine ⟨?_, ?_, ?_, ?_⟩
  · intro e he
    cases s with
    | Idle => cases eos <;> simp [StreamState.recv_headers] at he
    | Open l r =>
      cases r <;> cases eos <;>
        simp [StreamState.recv_headers, PeerState.check_is_headers] at he ⊢
    | HalfClosedLocal p =>
      cases p <;> cases eos <;>
        simp [StreamState.recv_headers, PeerState.check_is_headers] at he ⊢
    | HalfClosedRemote p => rfl
    | Closed => rfl
  · intro e he
    cases s with
    | Idle => cases eos <;> simp [StreamState.send_headers] at he
    | Open l r =>
      cases l <;> cases eos <;>
        simp [StreamState.send_headers, PeerState.check_is_headers] at he ⊢
    | HalfClosedRemote p =>
      cases p <;> cases eos <;>
        simp [StreamState.send_headers, PeerState.check_is_headers] at he ⊢
    | HalfClosedLocal p => rfl
    | Closed => rfl
  · intro p e hp he
    cases s with
    | Idle => simp [StreamState.recv_data] at hp
    | Open l r =>
      cases r with
      | Headers =>
        simp [StreamState.recv_data, PeerState.check_is_data] at hp
        subst hp; rfl
      | Data fc =>
        rcases PeerState.claim_window_size_cases (.Data fc) len
            (.proto .FlowControlError) with hc | ⟨q2, hc⟩
        · simp [StreamState.recv_data, PeerState.check_is_data, hc] at hp
          subst hp; rfl
        · simp [StreamState.recv_data, PeerState.check_is_data, hc] at hp
          subst hp; simp at he
    | HalfClosedLocal q =>
      cases q with
      | Headers =>
        simp [StreamState.recv_data, PeerState.check_is_data] at hp
        subst hp; rfl
      | Data fc =>
        rcases PeerState.claim_window_size_cases (.Data fc) len
            (.proto .FlowControlError) with hc | ⟨q2, hc⟩
        · simp [StreamState.recv_data, PeerState.check_is_data, hc] at hp
          subst hp; rfl
        · simp [StreamState.recv_data, PeerState.check_is_data, hc] at hp
          subst hp; simp at he
    | HalfClosedRemote q =>
      simp [StreamState.recv_data] at hp; subst hp; rfl
    | Closed =>
      simp [StreamState.recv_data] at hp; subst hp; rfl
  · intro p e hp he
    cases s with
    | Idle => simp [StreamState.send_data] at hp
    | Open l r =>
      cases l with
      | Headers =>
        simp [StreamState.send_data, PeerState.check_is_data] at hp
        subst hp; rfl
      | Data fc =>
        rcases PeerState.claim_window_size_cases (.Data fc) len
            (.user .FlowControlViolation) with hc | ⟨q2, hc⟩
        · simp [StreamState.send_data, PeerState.check_is_data, hc] at hp
          subst hp; rfl
        · simp [StreamState.send_data, PeerState.check_is_data, hc] at hp
          subst hp; simp at he
    | HalfClosedRemote q =>
      cases q with
      | Headers =>
        simp [StreamState.send_data, PeerState.check_is_data] at hp
        subst hp; rfl
      | Data fc =>
        rcases PeerState.claim_window_size_cases (.Data fc) len
            (.user .FlowControlViolation) with hc | ⟨q2, hc⟩
        · simp [StreamState.send_data, PeerState.check_is_data, hc] at hp
          subst hp; rfl
        · simp [StreamState.send_data, PeerState.check_is_data, hc] at hp
          subst hp; simp at he
    | HalfClosedLocal q =>
      simp [StreamState.send_data] at hp; subst hp; rfl
    | Closed =>
      simp [StreamState.send_data] at hp; subst hp; rfl

/-- Witness for C5 at the `Closed` state, where both HEADERS transitions
error and leave `Closed` unchanged. -/
theorem C5_atomicity_witness :
    (StreamState.recv_headers .Closed false 0).2 = .Closed ∧
    (StreamState.send_headers .Closed false 0).2 = .Closed :=
  ⟨(C5_error_leaves_state_unchanged .Closed false 0 0).1
      (.proto .ProtocolError) rfl,
   (C5_error_leaves_state_unchanged .Closed false 0 0).2.1
      (.user .UnexpectedFrameType) rfl⟩

/-- **C7.** Whenever `recv_headers` or `send_headers` returns `Ok(b)`, the
boolean `b` is true exactly when the state before the call was `Idle`
(the call that establishes the stream); every successful HEADERS transition
from a non-`Idle` state returns `Ok(false)`. -/
theorem C7_headers_bool_reports_idle (s : StreamState) (eos : Bool) (w : Nat)
    (b : Bool) :
    ((StreamState.recv_headers s eos w).1 = .ok b → (b = true ↔ s = .Idle)) ∧
    ((StreamState.send_headers s eos w).1 = .ok b → (b = true ↔ s = .Idle)) := by
  constructor
  · intro hb
    cases s with
    | Idle =>
      cases eos with
      | false => exact ⟨fun _ => rfl, fun _ => (Except.ok.inj hb).symm⟩
      | true => exact ⟨fun _ => rfl, fun _ => (Except.ok.inj hb).symm⟩
    | Open l r =>
      cases r with
      | Headers =>
        cases eos with
        | false => exact Except.noConfusion hb
        | true =>
          exact ⟨fun h => Bool.noConfusion ((Except.ok.inj hb).trans h),
                 fun h => StreamState.noConfusion h⟩
      | Data fc => exact Except.noConfusion hb
    | HalfClosedLocal p =>
      cases p with
      | Headers =>
        cases eos with
        | false =>
          exact ⟨fun h => Bool.noConfusion ((Except.ok.inj hb).trans h),
                 fun h => StreamState.noConfusion h⟩
        | true =>
          exact ⟨fun h => Bool.noConfusion ((Except.ok.inj hb).trans h),
                 fun h => StreamState.noConfusion h⟩
      | Data fc => exact Except.noConfusion hb
    | HalfClosedRemote p => exact Except.noConfusion hb
    | Closed => exact Except.noConfusion hb
  · intro hb
    cases s with
    | Idle =>
      cases eos with
      | false => exact ⟨fun _ => rfl, fun _ => (Except.ok.inj hb).symm⟩
      | true => exact ⟨fun _ => rfl, fun _ => (Except.ok.inj hb).symm⟩
    | Open l r =>
      cases l with
      | Headers =>
        cases eos with
        | false =>
          exact ⟨fun h => Bool.noConfusion ((Except.ok.inj hb).trans h),
                 fun h => StreamState.noConfusion h⟩
        | true =>
          exact ⟨fun h => Bool.noConfusion ((Except.ok.inj hb).trans h),
                 fun h => StreamState.noConfusion h⟩
      | Data fc => exact Except.noConfusion hb
    | HalfClosedRemote p =>
      cases p with
      | Headers =>
        cases eos with
        | false =>
          exact ⟨fun h => Bool.noConfusion ((Except.ok.inj hb).trans h),
                 fun h => StreamState.noConfusion h⟩
        | true =>
          exact ⟨fun h => Bool.noConfusion ((Except.ok.inj hb).trans h),
                 fun h => StreamState.noConfusion h⟩
      | Data fc => exact Except.noConfusion hb
    | HalfClosedLocal p => exact Except.noConfusion hb
    | Closed => exact Except.noConfusion hb

/-- Witness for C7 at `Idle`, `recv_headers(eos=true, 0)`, which returns
`Ok(true)`. -/
theorem C7_bool_witness : (true : Bool) = true ↔ StreamState.Idle = .Idle :=
  (C7_headers_bool_reports_idle .Idle true 0 true).1 rfl

/-- **C10.** On an `Open` stream, `shrink_send_window` and
`shrink_recv_window` compute exactly the same result: both shrink the local
half's controller when that half is in the `Data` phase, both leave the state
unchanged when it is `Headers`, and `shrink_send_window` never modifies the
remote half of an `Open` stream. -/
theorem C10_shrink_send_agrees_with_shrink_recv (l r : PeerState)
    (decr : Nat) :
    StreamState.shrink_send_window (.Open l r) decr
        = StreamState.shrink_recv_window (.Open l r) decr ∧
    (∀ fc, l = .Data fc → decr ≠ 0 →
        StreamState.shrink_send_window (.Open l r) decr
          = .Open (.Data (fc.shrink_window decr)) r) ∧
    (l = .Headers →
        StreamState.shrink_send_window (.Open l r) decr = .Open l r) ∧
    (∀ l2 r2, StreamState.shrink_send_window (.Open l r) decr = .Open l2 r2 →
        r2 = r) := by
  refine ⟨?_, ?_, ?_, ?_⟩
  · by_cases hd : decr = 0
    · simp [StreamState.shrink_send_window, StreamState.shrink_recv_window, hd]
    · cases l <;>
        simp [StreamState.shrink_send_window, StreamState.shrink_recv_window, hd]
  · intro fc hl hd
    subst hl
    simp [StreamState.shrink_send_window, hd]
  · intro hl
    subst hl
    by_cases hd : decr = 0 <;> simp [StreamState.shrink_send_window, hd]
  · intro l2 r2 h
    by_cases hd : decr = 0
    · simp only [StreamState.shrink_send_window, if_pos hd] at h
      exact (StreamState.Open.inj h).2.symm
    · cases l with
      | Headers =>
        simp only [StreamState.shrink_send_window, if_neg hd] at h
        exact (StreamState.Open.inj h).2.symm
      | Data fc =>
        simp only [StreamState.shrink_send_window, if_neg hd] at h
        exact (StreamState.Open.inj h).2.symm

/-- Witness for C10 at `Open { local: Data(window=8), remote: Headers }`
with `decr = 2`. -/
theorem C10_shrink_witness :
    StreamState.shrink_send_window
        (.Open (.Data { window_size := 8, pending_update := 0 }) .Headers) 2
      = .Open (.Data (FlowController.shrink_window
            { window_size := 8, pending_update := 0 } 2)) .Headers :=
  (C10_shrink_send_agrees_with_shrink_recv
      (.Data { window_size := 8, pending_update := 0 }) .Headers 2).2.1
    { window_size := 8, pending_update := 0 } rfl (by decide)
